import Mathlib

/-!
# Verification of the wrywebview native binding layer

Shallow embedding of `src/wrywebview/src/main/rust` (lib.rs, handle.rs,
platform/macos.rs).  Pure logic is translated function-by-function; the
registry/state module (`state.rs`) and the error enum (`error.rs`) are not
present under `src/`, so they are modelled from the spec (each such
definition says so in its doc comment).  External collaborators (the wry
engine, the objc runtime, the `time` crate) appear as explicit parameters
or as faithful models of their documented arithmetic.
-/

namespace WryWebview

deriving instance DecidableEq for Except

/-- Modelled from the spec: error taxonomy of §7 (`error.rs` is not under
`src/`).  `NotFound`/`WrongThread` carry the identifier, message-bearing
variants carry their message. -/
inductive WebViewError where
  | UnsupportedPlatform
  | InvalidWindowHandle
  | NotFound (id : Nat)
  | WrongThread (id : Nat)
  | UnderlyingEngineError (msg : String)
  | PlatformInitFailure (msg : String)
  | Internal (msg : String)
deriving DecidableEq, Repr

/-- Embeds `wry::Rect` as produced by `make_bounds` in handle.rs: a logical
position and a logical size, all `i32` components modelled as `Int`
(`i32::max` cannot overflow). -/
structure Rect where
  x : Int
  y : Int
  width : Int
  height : Int
deriving DecidableEq, Repr

/-- Embeds `make_bounds` (handle.rs:35-42): clamps width and height to a
minimum of 1 before building the rectangle. -/
def make_bounds (x y width height : Int) : Rect :=
  { x := x, y := y, width := max width 1, height := max height 1 }

/-- The objc runtime's view of the object behind a non-zero handle value,
as queried by `appkit_ns_view_from_handle` (platform/macos.rs:28-60):
whether `isKindOfClass: NSWindow` holds, whether `isKindOfClass: NSView`
holds, and the `contentView` pointer (`none` models a nil content view). -/
structure ObjcObject where
  isWindow : Bool
  isView : Bool
  contentView : Option Nat
deriving DecidableEq, Repr

/-- Embeds `appkit_ns_view_from_handle` (platform/macos.rs:28-60).  The objc
runtime is an explicit oracle `objc` mapping a pointer value to the object
behind it.  A zero handle fails the `NonNull::new` check; a window-class
object yields its content view (nil content view is an error); a view-class
object yields the pointer unchanged; anything else is an error. -/
def appkit_ns_view_from_handle (objc : Nat → ObjcObject) (parent_handle : Nat) :
    Except WebViewError Nat :=
  if parent_handle = 0 then
    .error .InvalidWindowHandle
  else
    let obj := objc parent_handle
    if obj.isWindow then
      match obj.contentView with
      | none => .error .InvalidWindowHandle
      | some view => .ok view
    else if obj.isView then
      .ok parent_handle
    else
      .error .InvalidWindowHandle

/-- The compile-time target platform selecting the `cfg` branch taken in
handle.rs:50-87. -/
inductive Platform where
  | windows
  | macos
  | linux
  | other
deriving DecidableEq, Repr

/-- Embeds `RawWindowHandle` as constructed by `raw_window_handle_from`:
one platform-specific constructor per branch. -/
inductive RawWindowHandle where
  | Win32 (hwnd : Nat)
  | AppKit (ns_view : Nat)
  | Xlib (window : Nat)
deriving DecidableEq, Repr

/-- Embeds `raw_window_handle_from` (handle.rs:45-88).  The zero check runs
before any platform branch; Windows wraps the handle (a non-zero `u64` casts
to a non-zero `isize`, so `NonZeroIsize::new` succeeds), macOS narrows via
`appkit_ns_view_from_handle`, Linux wraps the handle, and an unlisted
platform is unsupported. -/
def raw_window_handle_from (plat : Platform) (objc : Nat → ObjcObject)
    (parent_handle : Nat) : Except WebViewError RawWindowHandle :=
  if parent_handle = 0 then
    .error .InvalidWindowHandle
  else
    match plat with
    | .windows => .ok (.Win32 parent_handle)
    | .macos =>
        match appkit_ns_view_from_handle objc parent_handle with
        | .error e => .error e
        | .ok ns_view => .ok (.AppKit ns_view)
    | .linux => .ok (.Xlib parent_handle)
    | .other => .error .UnsupportedPlatform

/-- Formalisation of the spec's words for C5: "platform introspection
confirms a window-or-view class match" — on Windows and Linux no class
introspection is performed (vacuously confirmed), on macOS the object's
runtime class is a window or a view, on an unsupported platform nothing is
confirmed. -/
def introspection_confirms_class_match (plat : Platform)
    (objc : Nat → ObjcObject) (parent_handle : Nat) : Bool :=
  match plat with
  | .windows => true
  | .macos => (objc parent_handle).isWindow || (objc parent_handle).isView
  | .linux => true
  | .other => false

/-- The amended success condition for C5, following the source: on macOS a
window-class object must additionally have a non-nil content view (the
window branch is taken first, so a window-class object never falls through
to the view test). -/
def resolve_succeeds (plat : Platform) (objc : Nat → ObjcObject)
    (parent_handle : Nat) : Bool :=
  match plat with
  | .windows => true
  | .macos =>
      let obj := objc parent_handle
      if obj.isWindow then obj.contentView.isSome else obj.isView
  | .linux => true
  | .other => false

/-- A concrete objc oracle: every pointer is a window-class object whose
content view is nil. -/
def windowWithNilContentView : Nat → ObjcObject :=
  fun _ => { isWindow := true, isView := false, contentView := none }

/-- A concrete objc oracle: every pointer is a plain view-class object. -/
def plainView : Nat → ObjcObject :=
  fun _ => { isWindow := false, isView := true, contentView := none }

/-- Modelled from the spec: the per-instance shared state of §3 / §4.4
(`state.rs` is not under `src/`): current URL, loading flag, page title and
the FIFO inbound message queue.  The scenario of §8 fixes the loading flag
to `true` immediately after creation, and creation passes the initial URL
to `WebViewState::new` (lib.rs:241). -/
structure WebViewState where
  current_url : String
  is_loading : Bool
  page_title : String
  ipc_queue : List String
deriving DecidableEq, Repr

/-- Modelled from the spec: `WebViewState::new(url)` — current URL is the
creation URL, loading is `true` per the §8 creation scenario, title empty,
message queue empty. -/
def WebViewState.new (url : String) : WebViewState :=
  { current_url := url, is_loading := true, page_title := "", ipc_queue := [] }

/-- Modelled from the spec (§4.4): appending an inbound message to the FIFO
queue, as done by the ipc handler (lib.rs:290-297). -/
def WebViewState.push_ipc_message (s : WebViewState) (msg : String) : WebViewState :=
  { s with ipc_queue := s.ipc_queue ++ [msg] }

/-- Modelled from the spec (§4.4): `drain` atomically empties the queue and
returns its contents in FIFO order. -/
def WebViewState.drain_ipc_messages (s : WebViewState) : List String × WebViewState :=
  (s.ipc_queue, { s with ipc_queue := [] })

/-- Modelled from the spec (§4.2): the process-wide affinity registry — the
monotonic identifier counter and the identifier-to-state table.  The native
widget itself is an external collaborator and is elided; thread identifiers
are elided because every facade operation is dispatched onto the designated
thread before touching the registry (the dispatch wrappers in lib.rs). -/
structure Registry where
  nextId : Nat
  table : List (Nat × WebViewState)
deriving DecidableEq, Repr

/-- The registry at process start: no entries, first identifier will be 1
(the §8 scenario fixes the first created identifier to 1). -/
def Registry.initial : Registry := { nextId := 1, table := [] }

/-- Table lookup by identifier. -/
def Registry.lookupState (reg : Registry) (id : Nat) : Option WebViewState :=
  (reg.table.find? (fun e => e.fst = id)).map Prod.snd

/-- Replaces the state stored under `id` (no-op when absent). -/
def Registry.updateState (reg : Registry) (id : Nat) (s : WebViewState) : Registry :=
  { reg with table := reg.table.map (fun e => if e.fst = id then (id, s) else e) }

/-- Modelled from the spec (§4.2): `register` assigns the next identifier
from the monotonic counter and stores the entry; it never fails in this
poison-free model. -/
def register (s : WebViewState) (reg : Registry) : Nat × Registry :=
  (reg.nextId, { nextId := reg.nextId + 1, table := reg.table ++ [(reg.nextId, s)] })

/-- Modelled from the spec (§4.2, §6): `unregister` removes the entry;
destroying an unknown (or already-destroyed) identifier is not an error, so
the result is always `ok`. -/
def unregister (id : Nat) (reg : Registry) : Except WebViewError Unit × Registry :=
  (.ok (), { reg with table := reg.table.filter (fun e => ¬ e.fst = id) })

/-- Modelled from the spec: `get_state(id)` as used by the state queries in
lib.rs (get_url, is_loading, get_title, drain): a table lookup that fails
with `NotFound(id)` when the identifier is absent; the State Mirror is
queried without thread-affinity restrictions (§2). -/
def get_state (id : Nat) (reg : Registry) : Except WebViewError WebViewState :=
  match reg.lookupState id with
  | some s => .ok s
  | none => .error (.NotFound id)

/-- Modelled from the spec (§4.2 `withEntry`): resolves the identifier and
invokes the body with the widget; the native widget call is elided, so the
body's effect is summarised by its return value.  Fails with `NotFound(id)`
when the identifier is absent. -/
def with_webview (id : Nat) (reg : Registry) : Except WebViewError Unit :=
  match reg.lookupState id with
  | some _ => .ok ()
  | none => .error (.NotFound id)

/-- Embeds `get_url` (lib.rs:718-726) on the poison-free path: resolve the
state, read the mirrored current URL. -/
def get_url (id : Nat) (reg : Registry) : Except WebViewError String :=
  match get_state id reg with
  | .ok s => .ok s.current_url
  | .error e => .error e

/-- Embeds `is_loading` (lib.rs:728-732): resolve the state, read the
atomic loading flag. -/
def is_loading (id : Nat) (reg : Registry) : Except WebViewError Bool :=
  match get_state id reg with
  | .ok s => .ok s.is_loading
  | .error e => .error e

/-- Embeds `get_title` (lib.rs:734-742) on the poison-free path. -/
def get_title (id : Nat) (reg : Registry) : Except WebViewError String :=
  match get_state id reg with
  | .ok s => .ok s.page_title
  | .error e => .error e

/-- Embeds `drain_ipc_messages` (lib.rs:756-760) over the registry: resolve
the state and drain its queue in place. -/
def drain_ipc_messages (id : Nat) (reg : Registry) :
    Except WebViewError (List String) × Registry :=
  match reg.lookupState id with
  | some s =>
      let drained := s.drain_ipc_messages
      (.ok drained.fst, reg.updateState id drained.snd)
  | none => (.error (.NotFound id), reg)

/-- Embeds `set_bounds_inner` (lib.rs:398-405): builds the clamped bounds
via `make_bounds` and hands them to the widget through `with_webview`; the
elided widget call is summarised by the rectangle it receives. -/
def set_bounds_inner (id : Nat) (x y width height : Int) (reg : Registry) :
    Except WebViewError Rect :=
  let bounds := make_bounds x y width height
  match with_webview id reg with
  | .ok _ => .ok bounds
  | .error e => .error e

/-- Embeds `load_url_inner` (lib.rs:435-441): best-effort set of the loading
flag when the state resolves, then the widget call through `with_webview`
(the engine's `load_url` is elided). -/
def load_url_inner (id : Nat) (url : String) (reg : Registry) :
    Except WebViewError Unit × Registry :=
  let reg1 :=
    match reg.lookupState id with
    | some s => reg.updateState id { s with is_loading := true }
    | none => reg
  (with_webview id reg1, reg1)

/-- Embeds `destroy_webview_inner` (lib.rs:854-857): a log line and then
`unregister`. -/
def destroy_webview_inner (id : Nat) (reg : Registry) :
    Except WebViewError Unit × Registry :=
  unregister id reg

/-- Embeds the identifier-assigning tail of `create_webview_inner`
(lib.rs:212-353): validate the parent handle, build the widget (elided) with
a fresh `WebViewState`, and register it.  User agent and the callback wiring
are modelled separately (`navigation_handler`, `page_load_handler`). -/
def create_webview_inner (plat : Platform) (objc : Nat → ObjcObject)
    (parent_handle : Nat) (width height : Int) (url : String) (reg : Registry) :
    Except WebViewError Nat × Registry :=
  match raw_window_handle_from plat objc parent_handle with
  | .error e => (.error e, reg)
  | .ok _ =>
      let _initial_bounds := make_bounds 0 0 width height
      let registered := register (WebViewState.new url) reg
      (.ok registered.fst, registered.snd)

/-- Embeds the navigation closure installed by `with_navigation_handler`
(lib.rs:256-268): with a caller-supplied handler the closure returns the
handler's verdict and touches nothing else; without one it sets the loading
flag, mirrors the new URL, and allows the navigation. -/
def navigation_handler (nav_handler : Option (String → Bool))
    (s : WebViewState) (new_url : String) : WebViewState × Bool :=
  match nav_handler with
  | some handler => (s, handler new_url)
  | none => ({ s with is_loading := true, current_url := new_url }, true)

/-- Embeds `wry::PageLoadEvent`. -/
inductive PageLoadEvent where
  | Started
  | Finished
deriving DecidableEq, Repr

/-- Embeds the closure installed by `with_on_page_load_handler`
(lib.rs:269-283): `Started` sets the loading flag, `Finished` clears it and
mirrors the finished URL. -/
def page_load_handler (event : PageLoadEvent) (url : String)
    (s : WebViewState) : WebViewState :=
  match event with
  | .Started => { s with is_loading := true }
  | .Finished => { s with is_loading := false, current_url := url }

/-- Fires a page-load event against the instance registered under `id`
(callbacks touch only the State Mirror; a destroyed instance is a no-op). -/
def fire_page_load (id : Nat) (event : PageLoadEvent) (url : String)
    (reg : Registry) : Registry :=
  match reg.lookupState id with
  | some s => reg.updateState id (page_load_handler event url s)
  | none => reg

/-- One step of the identifier trace semantics for C2: a successful
creation or a destroy. -/
inductive RegOp where
  | create (url : String)
  | destroy (id : Nat)
deriving Repr

/-- Runs a sequence of create/destroy operations from a registry, collecting
the identifiers returned by the creations in order. -/
def runOps : List RegOp → Registry → List Nat × Registry
  | [], reg => ([], reg)
  | RegOp.create url :: rest, reg =>
      let registered := register (WebViewState.new url) reg
      let tail := runOps rest registered.snd
      (registered.fst :: tail.fst, tail.snd)
  | RegOp.destroy id :: rest, reg =>
      runOps rest (unregister id reg).snd

/-- The observable outcome of a call that may also abort the process: a
typed success, a typed error, or a process panic. -/
inductive Outcome (α : Type) where
  | ok (a : α)
  | err (e : WebViewError)
  | panicked
deriving DecidableEq, Repr

/-- Embeds `set_native_logger` (lib.rs:173-177) as a function of whether the
global logger `RwLock` is poisoned: the source calls
`get_logger_registry().write().unwrap()`, and `unwrap` on a poisoned lock
panics instead of producing a `WebViewError`. -/
def set_native_logger (logger_lock_poisoned : Bool) : Outcome Unit :=
  if logger_lock_poisoned then .panicked else .ok ()

/-- Embeds `get_url` (lib.rs:718-726) with the URL mutex poison state made
explicit: poisoning is mapped to `Internal "url lock poisoned"`. -/
def get_url_locked (id : Nat) (reg : Registry) (url_lock_poisoned : Bool) :
    Outcome String :=
  match get_state id reg with
  | .error e => .err e
  | .ok s =>
      if url_lock_poisoned then .err (.Internal "url lock poisoned")
      else .ok s.current_url

/-- Embeds the binding-side `CookieSameSite` enum (lib.rs:48-53). -/
inductive CookieSameSite where
  | None
  | Lax
  | Strict
deriving DecidableEq, Repr

/-- Embeds `wry::cookie::SameSite`. -/
inductive SameSite where
  | None
  | Lax
  | Strict
deriving DecidableEq, Repr

/-- Embeds `wry::cookie::Expiration`: a concrete instant (an
`OffsetDateTime`, modelled by its unix timestamp in nanoseconds) or a
session cookie. -/
inductive Expiration where
  | DateTime (nanos : Int)
  | Session
deriving DecidableEq, Repr

/-- Embeds the binding-side `WebViewCookie` record (lib.rs:55-69). -/
structure WebViewCookie where
  name : String
  value : String
  domain : Option String
  path : Option String
  expires_date_ms : Option Int
  is_session_only : Bool
  max_age_sec : Option Int
  same_site : Option CookieSameSite
  is_secure : Option Bool
  is_http_only : Option Bool
deriving DecidableEq, Repr

/-- Embeds `wry::cookie::Cookie` restricted to the fields this binding reads
and writes; `max_age` is kept as its whole-second count, matching
`Duration::seconds` / `whole_seconds`. -/
structure Cookie where
  name : String
  value : String
  domain : Option String
  path : Option String
  expires : Option Expiration
  max_age : Option Int
  same_site : Option SameSite
  secure : Option Bool
  http_only : Option Bool
deriving DecidableEq, Repr

/-- Embeds `Cookie::build((name, value))`: all optional fields unset. -/
def Cookie.build (name value : String) : Cookie :=
  { name := name, value := value, domain := none, path := none,
    expires := none, max_age := none, same_site := none,
    secure := none, http_only := none }

/-- The smallest unix timestamp (in nanoseconds) representable by the time
crate's `OffsetDateTime`: -9999-01-01T00:00:00Z. -/
def MIN_TIMESTAMP_NANOS : Int := -377705116800000000000

/-- The largest unix timestamp (in nanoseconds) representable by the time
crate's `OffsetDateTime`: 9999-12-31T23:59:59.999999999Z. -/
def MAX_TIMESTAMP_NANOS : Int := 253402300799999999999

/-- Embeds `OffsetDateTime::from_unix_timestamp_nanos`: succeeds exactly on
instants within the representable date range, and the instant is modelled by
its nanosecond timestamp. -/
def from_unix_timestamp_nanos (nanos : Int) : Option Int :=
  if MIN_TIMESTAMP_NANOS ≤ nanos ∧ nanos ≤ MAX_TIMESTAMP_NANOS then some nanos
  else none

/-- Embeds `OffsetDateTime::unix_timestamp` on an instant modelled by its
nanosecond timestamp: whole seconds, rounding toward negative infinity
(Int division in Lean is euclidean, which coincides with floor division for
the positive divisor used here). -/
def unix_timestamp (nanos : Int) : Int := nanos / 1000000000

/-- Embeds `OffsetDateTime::nanosecond`: the non-negative sub-second
nanosecond count of the instant. -/
def nanosecond (nanos : Int) : Int := nanos % 1000000000

/-- The enum translation done inside `cookie_from_record`
(lib.rs:138-142). -/
def same_site_to_native : CookieSameSite → SameSite
  | .None => .None
  | .Lax => .Lax
  | .Strict => .Strict

/-- The enum translation done inside `cookie_record_from`
(lib.rs:101-105). -/
def same_site_from_native : SameSite → CookieSameSite
  | .None => .None
  | .Lax => .Lax
  | .Strict => .Strict

/-- Embeds the guarded `builder.domain(domain)` call of `cookie_from_record`
(lib.rs:114-116). -/
def apply_domain (c : WebViewCookie) (k : Cookie) : Cookie :=
  match c.domain with
  | some d => { k with domain := some d }
  | none => k

/-- Embeds the guarded `builder.path(path)` call of `cookie_from_record`
(lib.rs:117-119). -/
def apply_path (c : WebViewCookie) (k : Cookie) : Cookie :=
  match c.path with
  | some p => { k with path := some p }
  | none => k

/-- Embeds the expiry block of `cookie_from_record` (lib.rs:120-126): a
present `expires_date_ms` is converted to an instant at
`expires_date_ms * 1_000_000` nanoseconds (failing with `Internal` when out
of range), and an absent one with the session flag set becomes
`Expiration::Session` via `expires(None)`. -/
def apply_expires (c : WebViewCookie) (k : Cookie) : Except WebViewError Cookie :=
  match c.expires_date_ms with
  | some ms =>
      match from_unix_timestamp_nanos (ms * 1000000) with
      | some dt => .ok { k with expires := some (.DateTime dt) }
      | none => .error (.Internal "invalid expires_date_ms")
  | none =>
      if c.is_session_only then .ok { k with expires := some .Session }
      else .ok k

/-- Embeds the trailing guarded builder calls of `cookie_from_record`
(lib.rs:128-144): `max_age`, `secure`, `http_only`, `same_site`. -/
def apply_tail (c : WebViewCookie) (k : Cookie) : Cookie :=
  let k5 := match c.max_age_sec with
    | some secs => { k with max_age := some secs }
    | none => k
  let k6 := match c.is_secure with
    | some b => { k5 with secure := some b }
    | none => k5
  let k7 := match c.is_http_only with
    | some b => { k6 with http_only := some b }
    | none => k6
  match c.same_site with
  | some ss => { k7 with same_site := some (same_site_to_native ss) }
  | none => k7

/-- Embeds `cookie_from_record` (lib.rs:111-147): the builder pipeline that
turns a binding record into a native cookie, as the composition of the
builder steps above. -/
def cookie_from_record (c : WebViewCookie) : Except WebViewError Cookie :=
  match apply_expires c (apply_path c (apply_domain c (Cookie.build c.name c.value))) with
  | .error e => .error e
  | .ok k4 => .ok (apply_tail c k4)

/-- Embeds `cookie_record_from` (lib.rs:85-109): reads a native cookie back
into a binding record; a concrete expiry is rendered as epoch milliseconds
via `unix_timestamp * 1000 + nanosecond / 1_000_000`, and
`Expiration::Session` sets the session flag with no expiry. -/
def cookie_record_from (k : Cookie) : WebViewCookie :=
  let expires_date_ms :=
    match k.expires with
    | some (.DateTime dt) => some (unix_timestamp dt * 1000 + nanosecond dt / 1000000)
    | some .Session => none
    | none => none
  let is_session_only :=
    match k.expires with
    | some .Session => true
    | _ => false
  { name := k.name, value := k.value, domain := k.domain, path := k.path,
    expires_date_ms := expires_date_ms, is_session_only := is_session_only,
    max_age_sec := k.max_age,
    same_site := k.same_site.map same_site_from_native,
    is_secure := k.secure, is_http_only := k.http_only }

/-- A concrete State Mirror with two queued inbound messages, used to
exercise the drain operation. -/
def sampleState : WebViewState :=
  { current_url := "https://example.com", is_loading := false,
    page_title := "t", ipc_queue := ["a", "b"] }

/-- A concrete registry holding `sampleState` under identifier 1. -/
def sampleRegistry : Registry :=
  { nextId := 2, table := [(1, sampleState)] }

/-- A concrete cookie record with every optional field populated. -/
def sampleCookie : WebViewCookie :=
  { name := "sid", value := "abc", domain := some "example.com",
    path := some "/", expires_date_ms := some 1700000000123,
    is_session_only := false, max_age_sec := some 3600,
    same_site := some .Lax, is_secure := some true,
    is_http_only := some false }

/-- The native cookie `cookie_from_record` produces for `sampleCookie`. -/
def sampleNativeCookie : Cookie :=
  { name := "sid", value := "abc", domain := some "example.com",
    path := some "/", expires := some (.DateTime 1700000000123000000),
    max_age := some 3600, same_site := some .Lax, secure := some true,
    http_only := some false }

/-- C4: for all integer inputs, the bounds rectangle constructed for
`setBounds` has width `max(width, 1)` and height `max(height, 1)`; both are
strictly positive, a requested 0x0 is clamped to 1x1, and `set_bounds_inner`
passes exactly this clamped rectangle to the widget whenever the identifier
resolves. -/
theorem make_bounds_clamps_to_min_one (x y width height : Int) :
    (make_bounds x y width height).width = max width 1 ∧
    (make_bounds x y width height).height = max height 1 ∧
    0 < (make_bounds x y width height).width ∧
    0 < (make_bounds x y width height).height ∧
    (make_bounds x y 0 0).width = 1 ∧
    (make_bounds x y 0 0).height = 1 ∧
    ∀ id reg, set_bounds_inner id x y width height reg = .ok (make_bounds x y width height) ∨
      set_bounds_inner id x y width height reg = .error (.NotFound id) := by
  refine ⟨rfl, rfl, ?_, ?_, rfl, rfl, ?_⟩
  · show 0 < max width 1
    omega
  · show 0 < max height 1
    omega
  · intro id reg
    unfold set_bounds_inner with_webview
    cases reg.lookupState id <;> simp

/-- C10: the navigation-intercept closure with a caller-supplied callback
returns exactly that callback's verdict and leaves the State Mirror
untouched; with no callback it sets the loading flag, mirrors the new URL,
and always allows the navigation. -/
theorem navigation_handler_frame (handler : String → Bool)
    (s : WebViewState) (u : String) :
    navigation_handler (some handler) s u = (s, handler u) ∧
    navigation_handler none s u =
      ({ s with is_loading := true, current_url := u }, true) ∧
    (navigation_handler none s u).snd = true :=
  ⟨rfl, rfl, rfl⟩

/-- C3 (code bug): `set_native_logger` calls `unwrap` on the global logger
lock, so a poisoned lock makes it panic instead of returning `Internal`;
by contrast `get_url` maps its poisoned lock to a typed error and never
panics. -/
theorem set_native_logger_panics_on_poisoned_lock :
    set_native_logger true = Outcome.panicked ∧
    (∀ msg, set_native_logger true ≠ Outcome.err (.Internal msg)) ∧
    ∀ id reg poisoned, get_url_locked id reg poisoned ≠ Outcome.panicked := by
  refine ⟨rfl, ?_, ?_⟩
  · intro msg h
    cases h
  · intro id reg poisoned
    unfold get_url_locked
    cases h : get_state id reg with
    | error e => simp
    | ok s => cases poisoned <;> simp

/-- C5 counterexample: on macOS a non-zero handle whose object is
window-class (so platform introspection confirms a window-or-view class
match) still fails to resolve when its content view is nil, refuting
"succeeds exactly when platform introspection confirms a window-or-view
class match". -/
theorem resolve_class_match_not_sufficient :
    introspection_confirms_class_match .macos windowWithNilContentView 1 = true ∧
    raw_window_handle_from .macos windowWithNilContentView 1 =
      .error .InvalidWindowHandle :=
  ⟨rfl, rfl⟩

/-- C5 (amended): a zero handle always fails with `InvalidWindowHandle`
before any platform introspection, on every target platform; a non-zero
handle on a supported platform resolves exactly when introspection confirms
a view-class object, or a window-class object with a non-nil content view
(`resolve_succeeds`). -/
theorem resolve_zero_fails_nonzero_iff_introspection (plat : Platform)
    (objc : Nat → ObjcObject) (h : Nat) :
    raw_window_handle_from plat objc 0 = .error .InvalidWindowHandle ∧
    (h ≠ 0 → plat ≠ .other →
      ((∃ r, raw_window_handle_from plat objc h = .ok r) ↔
        resolve_succeeds plat objc h = true)) := by
  constructor
  · unfold raw_window_handle_from
    simp
  · intro hnz hplat
    unfold raw_window_handle_from appkit_ns_view_from_handle resolve_succeeds
    cases plat with
    | windows => simp [hnz]
    | linux => simp [hnz]
    | other => exact absurd rfl hplat
    | macos =>
        simp only [if_neg hnz]
        cases hw : (objc h).isWindow with
        | true =>
            cases hcv : (objc h).contentView with
            | none => simp [hw, hcv]
            | some v => simp [hw, hcv]
        | false =>
            cases hv : (objc h).isView with
            | true => simp [hw, hv]
            | false => simp [hw, hv]

/-- Witness for the amended C5 at a concrete input: handle 7 on Linux. -/
theorem resolve_zero_fails_nonzero_iff_introspection_witness :
    (7 : Nat) ≠ 0 ∧ Platform.linux ≠ Platform.other ∧
    ((∃ r, raw_window_handle_from .linux plainView 7 = .ok r) ↔
      resolve_succeeds .linux plainView 7 = true) :=
  ⟨by decide, by decide,
    (resolve_zero_fails_nonzero_iff_introspection .linux plainView 7).2
      (by decide) (by decide)⟩

/-- C6: on macOS, resolution of a non-zero handle inspects the runtime
class of the object: a window-class object yields its content view (nil
content view fails with `InvalidWindowHandle`), a view-class object yields
the pointer unchanged, and an object of neither class fails with
`InvalidWindowHandle`. -/
theorem appkit_narrowing_by_runtime_class (objc : Nat → ObjcObject)
    (h : Nat) (hnz : h ≠ 0) :
    ((objc h).isWindow = true →
      appkit_ns_view_from_handle objc h =
        (match (objc h).contentView with
         | none => .error .InvalidWindowHandle
         | some view => .ok view)) ∧
    ((objc h).isWindow = false → (objc h).isView = true →
      appkit_ns_view_from_handle objc h = .ok h) ∧
    ((objc h).isWindow = false → (objc h).isView = false →
      appkit_ns_view_from_handle objc h = .error .InvalidWindowHandle) := by
  refine ⟨?_, ?_, ?_⟩
  · intro hw
    unfold appkit_ns_view_from_handle
    simp [hnz, hw]
  · intro hw hv
    unfold appkit_ns_view_from_handle
    simp [hnz, hw, hv]
  · intro hw hv
    unfold appkit_ns_view_from_handle
    simp [hnz, hw, hv]

/-- Witness for C6 at a concrete input: handle 5 resolving a plain
view-class object is returned unchanged. -/
theorem appkit_narrowing_by_runtime_class_witness :
    (5 : Nat) ≠ 0 ∧ appkit_ns_view_from_handle plainView 5 = .ok 5 :=
  ⟨by decide,
    (appkit_narrowing_by_runtime_class plainView 5 (by decide)).2.1 rfl rfl⟩

/-- C8: the creation scenario — the first successful create returns
identifier 1, `is_loading` immediately after creation is `true`, and after
the load-finished event for the created URL fires, `is_loading` is `false`
and `get_url` returns that URL. -/
theorem creation_scenario_first_id_and_loading :
    (create_webview_inner .linux plainView 77 800 600 "https://example.com"
        Registry.initial).fst = .ok 1 ∧
    is_loading 1 (create_webview_inner .linux plainView 77 800 600
        "https://example.com" Registry.initial).snd = .ok true ∧
    is_loading 1 (fire_page_load 1 .Finished "https://example.com"
        (create_webview_inner .linux plainView 77 800 600 "https://example.com"
          Registry.initial).snd) = .ok false ∧
    get_url 1 (fire_page_load 1 .Finished "https://example.com"
        (create_webview_inner .linux plainView 77 800 600 "https://example.com"
          Registry.initial).snd) = .ok "https://example.com" := by
  refine ⟨?_, ?_, ?_, ?_⟩ <;> decide

theorem find?_filter_ne_eq_none (table : List (Nat × WebViewState)) (id : Nat) :
    (table.filter (fun e => ¬ e.fst = id)).find? (fun e => e.fst = id) = none := by
  rw [List.find?_filter, List.find?_eq_none]
  intro x hx
  simp

theorem filter_ne_idem (table : List (Nat × WebViewState)) (id : Nat) :
    (table.filter (fun e => ¬ e.fst = id)).filter (fun e => ¬ e.fst = id) =
      table.filter (fun e => ¬ e.fst = id) := by
  apply List.filter_eq_self.mpr
  intro a ha
  exact (List.mem_filter.mp ha).2

theorem lookupState_after_unregister (reg : Registry) (id : Nat) :
    ((unregister id reg).snd).lookupState id = none := by
  unfold unregister Registry.lookupState
  simp [find?_filter_ne_eq_none]

/-- C1: after `destroy(id)`, every identifier-based operation on `id` fails
with `NotFound(id)` — getUrl, isLoading, getTitle, loadUrl, setBounds,
drainInboundMessages — while a second `destroy(id)` (equally a destroy of a
never-registered identifier) succeeds as a no-op. -/
theorem destroy_makes_id_notfound_and_is_idempotent (reg : Registry)
    (id : Nat) (url : String) (x y width height : Int) :
    (destroy_webview_inner id reg).fst = .ok () ∧
    get_url id (destroy_webview_inner id reg).snd = .error (.NotFound id) ∧
    is_loading id (destroy_webview_inner id reg).snd = .error (.NotFound id) ∧
    get_title id (destroy_webview_inner id reg).snd = .error (.NotFound id) ∧
    (load_url_inner id url (destroy_webview_inner id reg).snd).fst =
      .error (.NotFound id) ∧
    set_bounds_inner id x y width height (destroy_webview_inner id reg).snd =
      .error (.NotFound id) ∧
    (drain_ipc_messages id (destroy_webview_inner id reg).snd).fst =
      .error (.NotFound id) ∧
    destroy_webview_inner id (destroy_webview_inner id reg).snd =
      (.ok (), (destroy_webview_inner id reg).snd) := by
  have hnone : ((destroy_webview_inner id reg).snd).lookupState id = none :=
    lookupState_after_unregister reg id
  refine ⟨rfl, ?_, ?_, ?_, ?_, ?_, ?_, ?_⟩
  · unfold get_url get_state
    rw [hnone]
  · unfold is_loading get_state
    rw [hnone]
  · unfold get_title get_state
    rw [hnone]
  · unfold load_url_inner with_webview
    rw [hnone]
    simp [hnone]
  · unfold set_bounds_inner with_webview
    rw [hnone]
  · unfold drain_ipc_messages
    rw [hnone]
  · unfold destroy_webview_inner unregister
    simp [filter_ne_idem]

theorem runOps_ids_ge (ops : List RegOp) :
    ∀ (reg : Registry), ∀ i ∈ (runOps ops reg).fst, reg.nextId ≤ i := by
  induction ops with
  | nil =>
      intro reg i hi
      simp [runOps] at hi
  | cons op rest ih =>
      intro reg i hi
      cases op with
      | create url =>
          simp only [runOps, register] at hi
          rcases List.mem_cons.mp hi with hhead | htail
          · omega
          · have h2 := ih _ i htail
            exact Nat.le_of_succ_le h2
      | destroy d =>
          simp only [runOps] at hi
          exact ih (unregister d reg).snd i hi

theorem runOps_ids_pairwise (ops : List RegOp) :
    ∀ (reg : Registry), List.Pairwise (· < ·) (runOps ops reg).fst := by
  induction ops with
  | nil =>
      intro reg
      simp [runOps]
  | cons op rest ih =>
      intro reg
      cases op with
      | destroy d =>
          simp only [runOps]
          exact ih _
      | create url =>
          simp only [runOps, register]
          refine List.pairwise_cons.mpr ⟨?_, ih _⟩
          intro i hi
          exact Nat.lt_of_succ_le (runOps_ids_ge rest _ i hi)

/-- C2: over any sequence of create/destroy operations started from the
initial registry, the identifiers returned by the creations are strictly
increasing, and no identifier value is returned twice even after the
instance bearing it has been destroyed. -/
theorem created_identifiers_strictly_increasing_and_unique (ops : List RegOp) :
    List.Pairwise (· < ·) (runOps ops Registry.initial).fst ∧
    (runOps ops Registry.initial).fst.Nodup :=
  have hp := runOps_ids_pairwise ops Registry.initial
  ⟨hp, hp.imp (fun hlt => Nat.ne_of_lt hlt)⟩

theorem foldl_push_queue (msgs : List String) :
    ∀ s : WebViewState,
      (msgs.foldl WebViewState.push_ipc_message s).ipc_queue =
        s.ipc_queue ++ msgs := by
  induction msgs with
  | nil =>
      intro s
      simp
  | cons m rest ih =>
      intro s
      simp [List.foldl_cons, ih, WebViewState.push_ipc_message]

theorem find?_map_update (l : List (Nat × WebViewState)) (id : Nat)
    (s' : WebViewState)
    (h : (l.find? (fun e => e.fst = id)).isSome = true) :
    (l.map (fun e => if e.fst = id then (id, s') else e)).find?
      (fun e => e.fst = id) = some (id, s') := by
  induction l with
  | nil => simp at h
  | cons e rest ih =>
      by_cases he : e.fst = id
      · rw [List.map_cons, if_pos he]
        exact List.find?_cons_of_pos _ (by simp)
      · rw [List.map_cons, if_neg he, List.find?_cons_of_neg _ (by simp [he])]
        rw [List.find?_cons_of_neg _ (by simp [he])] at h
        exact ih h

theorem lookupState_updateState (reg : Registry) (id : Nat)
    (s0 s' : WebViewState) (h : reg.lookupState id = some s0) :
    (reg.updateState id s').lookupState id = some s' := by
  unfold Registry.lookupState Registry.updateState at *
  have hsome : (reg.table.find? (fun e => e.fst = id)).isSome = true := by
    cases hf : reg.table.find? (fun e => e.fst = id) <;> simp [hf] at h ⊢
  rw [find?_map_update reg.table id s' hsome]
  rfl

/-- C9: draining the inbound queue returns its contents in FIFO order (the
messages pushed onto an instance come back in push order, after whatever was
already queued) and atomically empties it; the drain is non-restartable —
at state level and through the public identifier-based operation, a second
drain with no intervening push returns the empty list. -/
theorem drain_is_fifo_atomic_and_nonrestartable (s : WebViewState)
    (msgs : List String) (id : Nat) (reg : Registry) (res : List String)
    (hfirst : (drain_ipc_messages id reg).fst = .ok res) :
    (msgs.foldl WebViewState.push_ipc_message s).drain_ipc_messages.fst =
      s.ipc_queue ++ msgs ∧
    (msgs.foldl WebViewState.push_ipc_message s).drain_ipc_messages.snd.ipc_queue = [] ∧
    ((msgs.foldl WebViewState.push_ipc_message s).drain_ipc_messages.snd).drain_ipc_messages.fst = [] ∧
    (drain_ipc_messages id (drain_ipc_messages id reg).snd).fst = .ok [] := by
  refine ⟨foldl_push_queue msgs s, rfl, rfl, ?_⟩
  cases hl : reg.lookupState id with
  | none =>
      unfold drain_ipc_messages at hfirst
      rw [hl] at hfirst
      cases hfirst
  | some s0 =>
      have hsnd : (drain_ipc_messages id reg).snd =
          reg.updateState id { s0 with ipc_queue := [] } := by
        unfold drain_ipc_messages
        rw [hl]
        rfl
      conv_lhs => rw [hsnd]
      unfold drain_ipc_messages
      rw [lookupState_updateState reg id s0 { s0 with ipc_queue := [] } hl]
      rfl

/-- Witness for C9 at a concrete input: the sample registry's instance 1
drains its two queued messages, and the second drain yields the empty
list. -/
theorem drain_is_fifo_atomic_and_nonrestartable_witness :
    (drain_ipc_messages 1 sampleRegistry).fst = .ok ["a", "b"] ∧
    ((sampleState.push_ipc_message "c").drain_ipc_messages.fst =
        sampleState.ipc_queue ++ ["c"] ∧
      (sampleState.push_ipc_message "c").drain_ipc_messages.snd.ipc_queue = [] ∧
      ((sampleState.push_ipc_message "c").drain_ipc_messages.snd).drain_ipc_messages.fst = [] ∧
      (drain_ipc_messages 1 (drain_ipc_messages 1 sampleRegistry).snd).fst = .ok []) := by
  refine ⟨by decide, ?_⟩
  have h := drain_is_fifo_atomic_and_nonrestartable sampleState ["c"] 1
    sampleRegistry ["a", "b"] (by decide)
  simpa [List.foldl_cons] using h

theorem expiry_ms_round_trip (ms : Int) :
    unix_timestamp (ms * 1000000) * 1000 + nanosecond (ms * 1000000) / 1000000 = ms := by
  unfold unix_timestamp nanosecond
  omega

theorem apply_domain_fields (c : WebViewCookie) (k : Cookie) :
    (apply_domain c k).name = k.name ∧ (apply_domain c k).value = k.value ∧
    (apply_domain c k).expires = k.expires ∧
    (apply_domain c k).same_site = k.same_site := by
  unfold apply_domain
  cases c.domain <;> exact ⟨rfl, rfl, rfl, rfl⟩

theorem apply_path_fields (c : WebViewCookie) (k : Cookie) :
    (apply_path c k).name = k.name ∧ (apply_path c k).value = k.value ∧
    (apply_path c k).expires = k.expires ∧
    (apply_path c k).same_site = k.same_site := by
  unfold apply_path
  cases c.path <;> exact ⟨rfl, rfl, rfl, rfl⟩

theorem apply_expires_fields (c : WebViewCookie) (k k' : Cookie)
    (h : apply_expires c k = .ok k') :
    k'.name = k.name ∧ k'.value = k.value ∧
    k'.expires =
      (match c.expires_date_ms with
       | some ms => some (Expiration.DateTime (ms * 1000000))
       | none => if c.is_session_only then some .Session else k.expires) ∧
    k'.same_site = k.same_site := by
  unfold apply_expires from_unix_timestamp_nanos at h
  split at h
  case _ ms hms =>
      split at h
      case _ dt hdt =>
          injection h with h3
          have hdt2 : dt = ms * 1000000 := by
            by_cases hr : MIN_TIMESTAMP_NANOS ≤ ms * 1000000 ∧
                ms * 1000000 ≤ MAX_TIMESTAMP_NANOS
            · rw [if_pos hr] at hdt
              injection hdt with h4
              exact h4.symm
            · rw [if_neg hr] at hdt
              cases hdt
          rw [← h3, hdt2]
          exact ⟨rfl, rfl, rfl, rfl⟩
      case _ hdt =>
          cases h
  case _ hms =>
      by_cases hs : c.is_session_only
      · rw [if_pos hs] at h
        injection h with h3
        rw [← h3, if_pos hs]
        exact ⟨rfl, rfl, rfl, rfl⟩
      · rw [if_neg hs] at h
        injection h with h3
        rw [← h3, if_neg hs]
        exact ⟨rfl, rfl, rfl, rfl⟩

theorem apply_tail_fields (c : WebViewCookie) (k : Cookie) :
    (apply_tail c k).name = k.name ∧ (apply_tail c k).value = k.value ∧
    (apply_tail c k).expires = k.expires ∧
    (apply_tail c k).same_site =
      (match c.same_site with
       | some ss => some (same_site_to_native ss)
       | none => k.same_site) := by
  unfold apply_tail
  cases c.max_age_sec <;> cases c.is_secure <;> cases c.is_http_only <;>
    cases c.same_site <;> exact ⟨rfl, rfl, rfl, rfl⟩

/-- C7: a cookie record that converts successfully to a native cookie via
the `setCookie` conversion and is read back via the `getCookiesForUrl`
conversion keeps its name, value and same-site policy, and its expiry
field denotes the same instant — the epoch-millisecond value is recovered
exactly. -/
theorem cookie_round_trip_preserves_fields (c : WebViewCookie) (k : Cookie)
    (hk : cookie_from_record c = .ok k) :
    (cookie_record_from k).name = c.name ∧
    (cookie_record_from k).value = c.value ∧
    (cookie_record_from k).same_site = c.same_site ∧
    (cookie_record_from k).expires_date_ms = c.expires_date_ms := by
  unfold cookie_from_record at hk
  cases he : apply_expires c (apply_path c (apply_domain c (Cookie.build c.name c.value))) with
  | error e =>
      rw [he] at hk
      cases hk
  | ok k4 =>
      rw [he] at hk
      have h2 : Except.ok (apply_tail c k4) = Except.ok k := hk
      injection h2 with h3
      rw [← h3]
      have hd := apply_domain_fields c (Cookie.build c.name c.value)
      have hp := apply_path_fields c (apply_domain c (Cookie.build c.name c.value))
      have hx := apply_expires_fields c
        (apply_path c (apply_domain c (Cookie.build c.name c.value))) k4 he
      have ht := apply_tail_fields c k4
      refine ⟨?_, ?_, ?_, ?_⟩
      · show (apply_tail c k4).name = c.name
        rw [ht.1, hx.1, hp.1, hd.1]
        rfl
      · show (apply_tail c k4).value = c.value
        rw [ht.2.1, hx.2.1, hp.2.1, hd.2.1]
        rfl
      · show ((apply_tail c k4).same_site).map same_site_from_native = c.same_site
        rw [ht.2.2.2]
        cases hss : c.same_site with
        | none =>
            rw [hx.2.2.2, hp.2.2.2, hd.2.2.2]
            rfl
        | some ss => cases ss <;> rfl
      · show (match (apply_tail c k4).expires with
              | some (.DateTime dt) =>
                  some (unix_timestamp dt * 1000 + nanosecond dt / 1000000)
              | some .Session => none
              | none => none) = c.expires_date_ms
        rw [ht.2.2.1, hx.2.2.1]
        cases hms : c.expires_date_ms with
        | some ms =>
            show some (unix_timestamp (ms * 1000000) * 1000 +
              nanosecond (ms * 1000000) / 1000000) = some ms
            rw [expiry_ms_round_trip]
        | none =>
            by_cases hs : c.is_session_only
            · rw [if_pos hs]
            · rw [if_neg hs, hp.2.2.1, hd.2.2.1]
              rfl

/-- Witness for C7 at a concrete input: the fully populated sample cookie
round-trips its name, value, same-site policy and expiry. -/
theorem cookie_round_trip_preserves_fields_witness :
    cookie_from_record sampleCookie = .ok sampleNativeCookie ∧
    ((cookie_record_from sampleNativeCookie).name = sampleCookie.name ∧
      (cookie_record_from sampleNativeCookie).value = sampleCookie.value ∧
      (cookie_record_from sampleNativeCookie).same_site = sampleCookie.same_site ∧
      (cookie_record_from sampleNativeCookie).expires_date_ms =
        sampleCookie.expires_date_ms) :=
  ⟨by decide,
    cookie_round_trip_preserves_fields sampleCookie sampleNativeCookie (by decide)⟩

end WryWebview
